import Mathlib

/-!
Shallow embedding of `memgpt/embeddings.py`: the embedding-provider factory,
the self-hosted HTTP embedding endpoint, the tokenizer-aware text chunker and
the query-vector padding helper, together with proofs of the specified
properties.

External collaborators (the `tiktoken` tokenizer library, the `llama_index`
truncation helper `format_text`, vendor SDK clients and the HTTP transport)
are modelled as explicit function parameters; JSON response bodies are
modelled by an inductive `Json` type; Python floats carry no arithmetic in
this module, so vector components are modelled as rationals.
-/

namespace MemGPT

/-- JSON values, as produced by `response.json()` on the HTTP response body.
Objects are association lists of string keys (Python dicts from JSON never
contain duplicate keys, and lookup below returns the first binding). -/
inductive Json where
  | null
  | bool (b : Bool)
  | num (q : Rat)
  | str (s : String)
  | arr (elems : List Json)
  | obj (fields : List (String × Json))

/-- Python dict key access `d[k]` on a JSON object: the value bound to `k`,
or `none` (KeyError) when the key is absent. -/
def jlookup (fields : List (String × Json)) (k : String) : Option Json :=
  (fields.find? (fun p => p.1 == k)).map (fun p => p.2)

/-- Errors raised by the endpoint code: `ValueError` on an invalid base URL
(construction and call-time re-validation), and the `TypeError` raised when
the response payload matches neither recognized shape (Python also lets a
`TypeError` from subscripting a non-list `data` propagate; both surface to
the caller as an error, modelled by the same constructor). -/
inductive EmbErr where
  | invalidEndpointURL (url : String)
  | malformedResponse
deriving DecidableEq, Repr

/-- Modelled from the spec: `is_valid_url` from `memgpt.utils` is not under
`src/`; the spec requires a check that the string is a syntactically valid
URL (so `"not a url"` is invalid). Modelled as: the string contains a
`://` separator with a nonempty scheme before it and a nonempty network
location (up to the next `/`) after it. -/
def is_valid_url (url : String) : Bool :=
  match find_scheme_sep url.toList with
  | some p => !p.1.isEmpty && !(p.2.takeWhile (fun c => c != '/')).isEmpty
  | none => false
where
  /-- Split a character list at the first `://`, returning the parts before
  and after it. -/
  find_scheme_sep : List Char → Option (List Char × List Char)
    | [] => none
    | ':' :: '/' :: '/' :: rest => some ([], rest)
    | c :: rest => (find_scheme_sep rest).map (fun p => (c :: p.1, p.2))

/-- Lines 99-110 of `embeddings.py` (`EmbeddingEndpoint._call_api`, shared
verbatim with `_acall_api`): if the response body is a JSON list it is the
embedding, returned unchanged (no element validation); if it is a JSON
object, the embedding is `response_json["data"][0]["embedding"]`, with
`KeyError`/`IndexError` (and the `TypeError`s Python raises when `data` or
its first element is not subscriptable by those keys) surfacing as a
malformed-response error; any other body is a malformed-response error. -/
def parseResponse (response_json : Json) : Except EmbErr Json :=
  match response_json with
  | .arr _ => .ok response_json
  | .obj fields =>
    match jlookup fields "data" with
    | some (.arr (first :: _)) =>
      match first with
      | .obj f2 =>
        match jlookup f2 "embedding" with
        | some emb => .ok emb
        | none => .error .malformedResponse
      | _ => .error .malformedResponse
    | some (.arr []) => .error .malformedResponse
    | some _ => .error .malformedResponse
    | none => .error .malformedResponse
  | _ => .error .malformedResponse

/-- The state of an `EmbeddingEndpoint` instance: the private attributes set
by `__init__` (`model_name` via the superclass, `_user`, `_base_url`,
`_timeout`). -/
structure EmbeddingEndpoint where
  model_name : String
  user : Option String
  base_url : String
  timeout : Rat
deriving DecidableEq, Repr

/-- The JSON request body `{"input": text, "model": model_name, "user": user}`
POSTed to `{base_url}/embeddings`. -/
structure EmbRequest where
  input : String
  model : String
  user : Option String
deriving DecidableEq, Repr

/-- `EmbeddingEndpoint.__init__` (lines 57-73): validates `base_url` before
storing any state and raises `ValueError` on an invalid URL; no network
access occurs (the function takes no backend). -/
def EmbeddingEndpoint.make (model : String) (base_url : String) (user : Option String)
    (timeout : Rat) : Except EmbErr EmbeddingEndpoint :=
  if is_valid_url base_url then
    .ok { model_name := model, user := user, base_url := base_url, timeout := timeout }
  else
    .error (.invalidEndpointURL base_url)

/-- `EmbeddingEndpoint._call_api` (lines 79-112): re-validate the stored
base URL (raising `ValueError` before any request when invalid), POST the
request, and parse the response body. The HTTP transport is modelled as a
deterministic function `backend` from the request to the response body. -/
def EmbeddingEndpoint.call_api (e : EmbeddingEndpoint) (backend : EmbRequest → Json)
    (text : String) : Except EmbErr Json :=
  if is_valid_url e.base_url then
    parseResponse (backend { input := text, model := e.model_name, user := e.user })
  else
    .error (.invalidEndpointURL e.base_url)

/-- `EmbeddingEndpoint._acall_api` (lines 114-146): textually identical body
to `_call_api`, with the POST awaited instead of blocking. -/
def EmbeddingEndpoint.acall_api (e : EmbeddingEndpoint) (backend : EmbRequest → Json)
    (text : String) : Except EmbErr Json :=
  if is_valid_url e.base_url then
    parseResponse (backend { input := text, model := e.model_name, user := e.user })
  else
    .error (.invalidEndpointURL e.base_url)

/-- `EmbeddingEndpoint._get_query_embedding` (lines 148-151). -/
def EmbeddingEndpoint.get_query_embedding (e : EmbeddingEndpoint)
    (backend : EmbRequest → Json) (query : String) : Except EmbErr Json :=
  e.call_api backend query

/-- `EmbeddingEndpoint._get_text_embedding` (lines 153-156). -/
def EmbeddingEndpoint.get_text_embedding (e : EmbeddingEndpoint)
    (backend : EmbRequest → Json) (text : String) : Except EmbErr Json :=
  e.call_api backend text

/-- `EmbeddingEndpoint._get_text_embeddings` (lines 158-160): element-wise
application of `_get_text_embedding`. -/
def EmbeddingEndpoint.get_text_embeddings (e : EmbeddingEndpoint)
    (backend : EmbRequest → Json) (texts : List String) : List (Except EmbErr Json) :=
  texts.map (fun text => e.get_text_embedding backend text)

/-- `EmbeddingEndpoint._aget_query_embedding` (lines 162-163): delegates to
the synchronous query path. -/
def EmbeddingEndpoint.aget_query_embedding (e : EmbeddingEndpoint)
    (backend : EmbRequest → Json) (query : String) : Except EmbErr Json :=
  e.get_query_embedding backend query

/-- `EmbeddingEndpoint._aget_text_embedding` (lines 165-166): delegates to
the synchronous text path. -/
def EmbeddingEndpoint.aget_text_embedding (e : EmbeddingEndpoint)
    (backend : EmbRequest → Json) (text : String) : Except EmbErr Json :=
  e.get_text_embedding backend text

/-- A tokenizer object as returned by `tiktoken.get_encoding` (external
library): it can encode a string to a token list, and may or may not expose
a `max_length` attribute (`hasattr(encoding, "max_length")`). -/
structure Encoding where
  encode : String → List Nat
  max_length : Option Nat

/-- The warnings `check_and_split_text` prints, modelled as data so their
emission is provable. -/
inductive Warning where
  | tokenizerNotFound (embedding_model : String)
  | maxLengthNotFound (embedding_model : String)
  | truncation (num_tokens max_length : Nat)
deriving DecidableEq, Repr

/-- Lines 22-26 of `embeddings.py` (the tokenizer-resolution step of
`check_and_split_text`): look the model up in `EMBEDDING_TO_TOKENIZER_MAP`
(a static constant from `memgpt.constants`, passed here as the association
list `tokenizer_map`); on a miss, print a warning and fall back to
`EMBEDDING_TO_TOKENIZER_DEFAULT` (`tokenizer_default`). `get_encoding` is
the external `tiktoken.get_encoding`. -/
def resolve_tokenizer (get_encoding : String → Encoding)
    (tokenizer_map : List (String × String)) (tokenizer_default : String)
    (embedding_model : String) : Encoding × List Warning :=
  match tokenizer_map.find? (fun p => p.1 == embedding_model) with
  | some p => (get_encoding p.2, [])
  | none => (get_encoding tokenizer_default, [Warning.tokenizerNotFound embedding_model])

/-- Lines 31-36 of `embeddings.py`: use the tokenizer's declared
`max_length` when the attribute exists, else warn and default to 8191. -/
def resolve_max_length (encoding : Encoding) (embedding_model : String) :
    Nat × List Warning :=
  match encoding.max_length with
  | some m => (m, [])
  | none => (8191, [Warning.maxLengthNotFound embedding_model])

/-- `check_and_split_text` (lines 19-44): resolve the tokenizer, count the
text's tokens, resolve `max_length`, truncate via the external
`llama_index` helper `format_text text embedding_model max_length` (with a
warning) when the count exceeds `max_length`, and return a single-element
list. Returns the segment list paired with the warnings printed. -/
def check_and_split_text (get_encoding : String → Encoding)
    (tokenizer_map : List (String × String)) (tokenizer_default : String)
    (format_text : String → String → Nat → String)
    (text : String) (embedding_model : String) : List String × List Warning :=
  let encw := resolve_tokenizer get_encoding tokenizer_map tokenizer_default embedding_model
  let num_tokens := (encw.1.encode text).length
  let mlw := resolve_max_length encw.1 embedding_model
  if num_tokens > mlw.1 then
    ([format_text text embedding_model mlw.1],
      encw.2 ++ mlw.2 ++ [Warning.truncation num_tokens mlw.1])
  else
    ([text], encw.2 ++ mlw.2)

/-- The `ValueError` NumPy raises when `np.pad` is given a negative pad
width, i.e. when the vector is already wider than the padding target. -/
inductive PadError where
  | oversizedVectorForPadding
deriving DecidableEq, Repr

/-- `query_embedding` (lines 179-184): embed the query text, then zero-pad
the vector to `MAX_EMBEDDING_DIM` with
`np.pad(v, (0, MAX_EMBEDDING_DIM - len(v)), mode="constant")`.
`MAX_EMBEDDING_DIM` is a constant from `memgpt.constants` (not under
`src/`; the spec fixes no value), passed here as `max_embedding_dim`; the
provider's `get_text_embedding` is passed as a function. When the vector is
longer than `max_embedding_dim` the pad width is negative and `np.pad`
raises `ValueError`. -/
def query_embedding (max_embedding_dim : Nat) (get_text_embedding : String → List Rat)
    (query_text : String) : Except PadError (List Rat) :=
  let query_vec := get_text_embedding query_text
  if query_vec.length ≤ max_embedding_dim then
    .ok (query_vec ++ List.replicate (max_embedding_dim - query_vec.length) 0)
  else
    .error .oversizedVectorForPadding

/-- Modelled from the spec: `EmbeddingConfig` lives in `memgpt.data_types`
(not under `src/`). The spec's data model gives
`{ endpoint_type: enum, model: string, endpoint_url: optional string,
declared_dimension: int }`; field names follow the attribute accesses in
`embeddings.py` (`embedding_endpoint_type`, `embedding_model`,
`embedding_endpoint`). `endpoint_type` may be absent (`none`). -/
structure EmbeddingConfig where
  embedding_endpoint_type : Option String
  embedding_model : String
  embedding_endpoint : Option String
  embedding_dim : Nat
deriving DecidableEq, Repr

/-- Modelled from the spec: `MemGPTCredentials` lives in
`memgpt.credentials` (not under `src/`). The spec's data model gives
`{ openai_key, azure_key, azure_endpoint, azure_version,
azure_embedding_deployment }`, each possibly absent. -/
structure MemGPTCredentials where
  openai_key : Option String
  azure_key : Option String
  azure_endpoint : Option String
  azure_version : Option String
  azure_embedding_deployment : Option String
deriving DecidableEq, Repr

/-- The provider variants `embedding_model` can construct. The vendor SDK
clients (`OpenAIEmbedding`, `AzureOpenAIEmbedding`, `HuggingFaceEmbedding`)
are external; each variant records the construction arguments the source
passes to them. -/
inductive Provider where
  | openaiHosted (api_base : Option String) (api_key : Option String)
      (user_tag : Option String)
  | azureHosted (model : String) (deployment : String) (api_key : Option String)
      (azure_endpoint : Option String) (azure_version : Option String)
  | endpointVariant (e : EmbeddingEndpoint)
  | localFallback (model_name : String)
deriving DecidableEq, Repr

/-- `default_embedding_model` (lines 169-176): a `HuggingFaceEmbedding`
wrapping the fixed local model identifier `"BAAI/bge-small-en-v1.5"`. -/
def default_embedding_model : Provider :=
  .localFallback "BAAI/bge-small-en-v1.5"

/-- `embedding_model` (lines 187-213): dispatch on
`config.embedding_endpoint_type`. `"openai"` builds the hosted OpenAI
client (user tag attached only when `user_id` is present); `"azure"` builds
the Azure client with model `"text-embedding-ada-002"` and the credentials'
deployment when declared; `"hugging-face"` constructs an
`EmbeddingEndpoint` (which validates the URL and can fail); anything else
falls back to `default_embedding_model`. Credentials are passed explicitly
(the source loads them ambiently via `MemGPTCredentials.load()`). -/
def embedding_model (config : EmbeddingConfig) (credentials : MemGPTCredentials)
    (user_id : Option String) : Except EmbErr Provider :=
  let endpoint_type := config.embedding_endpoint_type
  if endpoint_type = some "openai" then
    .ok (.openaiHosted config.embedding_endpoint credentials.openai_key user_id)
  else if endpoint_type = some "azure" then
    let model := "text-embedding-ada-002"
    let deployment := credentials.azure_embedding_deployment.getD model
    .ok (.azureHosted model deployment credentials.azure_key
      credentials.azure_endpoint credentials.azure_version)
  else if endpoint_type = some "hugging-face" then
    (EmbeddingEndpoint.make config.embedding_model (config.embedding_endpoint.getD "")
      user_id 60).map .endpointVariant
  else
    .ok default_embedding_model

/-- Discriminator for which variant a `Provider` value is; used to state
that `embedding_endpoint_type` uniquely determines the constructed
variant. -/
def Provider.tag : Provider → Nat
  | .openaiHosted _ _ _ => 0
  | .azureHosted _ _ _ _ _ => 1
  | .endpointVariant _ => 2
  | .localFallback _ => 3

/-- `true` exactly on the self-hosted HTTP-endpoint variant. -/
def Provider.isEndpointVariant : Provider → Bool
  | .endpointVariant _ => true
  | _ => false

/-- The variant `embedding_model`'s `if`/`elif` chain selects for a given
`embedding_endpoint_type`, as a `Provider.tag` value. -/
def dispatch_tag (endpoint_type : Option String) : Nat :=
  if endpoint_type = some "openai" then 0
  else if endpoint_type = some "azure" then 1
  else if endpoint_type = some "hugging-face" then 2
  else 3

/-- The tokenizer `check_and_split_text` resolves for a model identifier. -/
abbrev resolved_encoding (get_encoding : String → Encoding)
    (tokenizer_map : List (String × String)) (tokenizer_default : String)
    (embedding_model : String) : Encoding :=
  (resolve_tokenizer get_encoding tokenizer_map tokenizer_default embedding_model).1

/-- The token budget `check_and_split_text` resolves for a model
identifier. -/
abbrev resolved_max_length (get_encoding : String → Encoding)
    (tokenizer_map : List (String × String)) (tokenizer_default : String)
    (embedding_model : String) : Nat :=
  (resolve_max_length
    (resolved_encoding get_encoding tokenizer_map tokenizer_default embedding_model)
    embedding_model).1

/-! ## Theorems -/

/-- C9: for the self-hosted HTTP-endpoint variant, with the backend a
deterministic function of the request, `_get_query_embedding`,
`_aget_text_embedding` and `_aget_query_embedding` each return exactly the
same result as `_get_text_embedding` on the same text (and the async
transport path `_acall_api` agrees with `_call_api`): the query path and
the asynchronous paths are functionally equivalent to the synchronous text
path. -/
theorem query_and_async_paths_equal_text_path (e : EmbeddingEndpoint)
    (backend : EmbRequest → Json) (text : String) :
    e.get_query_embedding backend text = e.get_text_embedding backend text ∧
    e.aget_text_embedding backend text = e.get_text_embedding backend text ∧
    e.aget_query_embedding backend text = e.get_text_embedding backend text ∧
    e.acall_api backend text = e.call_api backend text :=
  ⟨rfl, rfl, rfl, rfl⟩

/-- C10: when the response body is a JSON array, the parser returns it as
the embedding without validating that its elements are numbers: here a
concrete array of (non-numeric) objects is returned unchanged rather than
rejected as malformed. -/
theorem parseResponse_array_elements_unvalidated :
    parseResponse (Json.arr [Json.obj [("a", Json.num 1)], Json.obj []]) =
      Except.ok (Json.arr [Json.obj [("a", Json.num 1)], Json.obj []]) :=
  rfl

/-- C4: a JSON-array body is returned unchanged; a JSON-object body whose
`"data"` entry is a nonempty array whose first element is an object with an
`"embedding"` entry yields that embedding; and (completeness) every body on
which the parser returns a value is of one of those two shapes — every
other body, including an object missing those keys or with an empty `data`
array, yields the malformed-response error instead of a value. -/
theorem parseResponse_spec :
    (∀ xs : List Json, parseResponse (.arr xs) = .ok (.arr xs)) ∧
    (∀ (fields f2 : List (String × Json)) (rest : List Json) (emb : Json),
      jlookup fields "data" = some (.arr (.obj f2 :: rest)) →
      jlookup f2 "embedding" = some emb →
      parseResponse (.obj fields) = .ok emb) ∧
    (∀ (j v : Json), parseResponse j = .ok v →
      (∃ xs, j = .arr xs ∧ v = .arr xs) ∨
      (∃ (fields f2 : List (String × Json)) (rest : List Json) (emb : Json),
        j = .obj fields ∧
        jlookup fields "data" = some (.arr (.obj f2 :: rest)) ∧
        jlookup f2 "embedding" = some emb ∧ v = emb)) := by
  refine ⟨fun xs => rfl, ?_, ?_⟩
  · intro fields f2 rest emb h1 h2
    simp [parseResponse, h1, h2]
  · intro j v h
    cases j with
    | arr xs =>
      simp only [parseResponse, Except.ok.injEq] at h
      exact Or.inl ⟨xs, rfl, h.symm⟩
    | obj fields =>
      refine Or.inr ?_
      rcases hdata : jlookup fields "data" with _ | d
      · simp [parseResponse, hdata] at h
      · cases d with
        | arr elems =>
          cases elems with
          | nil => simp [parseResponse, hdata] at h
          | cons first rest =>
            cases first with
            | obj f2 =>
              rcases hemb : jlookup f2 "embedding" with _ | emb
              · simp [parseResponse, hdata, hemb] at h
              · simp only [parseResponse, hdata, hemb, Except.ok.injEq] at h
                exact ⟨fields, f2, rest, emb, rfl, hdata, hemb, h.symm⟩
            | null => simp [parseResponse, hdata] at h
            | bool b => simp [parseResponse, hdata] at h
            | num q => simp [parseResponse, hdata] at h
            | str s => simp [parseResponse, hdata] at h
            | arr a => simp [parseResponse, hdata] at h
        | null => simp [parseResponse, hdata] at h
        | bool b => simp [parseResponse, hdata] at h
        | num q => simp [parseResponse, hdata] at h
        | str s => simp [parseResponse, hdata] at h
        | obj o => simp [parseResponse, hdata] at h
    | null => exact absurd h (by simp [parseResponse])
    | bool b => exact absurd h (by simp [parseResponse])
    | num q => exact absurd h (by simp [parseResponse])
    | str s => exact absurd h (by simp [parseResponse])

/-- C4 witness: the parser applied to
`{"data": [{"embedding": [0.4, 0.5]}]}` returns `[0.4, 0.5]`. -/
theorem parseResponse_spec_witness :
    parseResponse (.obj [("data",
        .arr [.obj [("embedding", .arr [.num (2/5), .num (1/2)])]])]) =
      .ok (.arr [.num (2/5), .num (1/2)]) :=
  parseResponse_spec.2.1
    [("data", .arr [.obj [("embedding", .arr [.num (2/5), .num (1/2)])]])]
    [("embedding", .arr [.num (2/5), .num (1/2)])] []
    (.arr [.num (2/5), .num (1/2)]) rfl rfl

/-- C5: constructing the self-hosted HTTP-endpoint variant with an invalid
`base_url` fails with the invalid-URL error before any network call (the
constructor takes no backend at all), and every call re-validates the
stored `base_url` first, failing with the same invalid-URL error no matter
what the backend would answer (the result is independent of `backend`, so
no request is issued). -/
theorem endpoint_url_validation (model base : String) (user : Option String) (t : Rat)
    (e : EmbeddingEndpoint) (backend : EmbRequest → Json) (text : String) :
    (is_valid_url base = false →
      EmbeddingEndpoint.make model base user t = .error (.invalidEndpointURL base)) ∧
    (is_valid_url e.base_url = false →
      e.call_api backend text = .error (.invalidEndpointURL e.base_url)) := by
  constructor
  · intro h
    simp [EmbeddingEndpoint.make, h]
  · intro h
    simp [EmbeddingEndpoint.call_api, h]

/-- C5 witness: `base_url = "not a url"` fails URL validation, so
construction fails with the invalid-URL error, and a call on an endpoint
state holding that URL fails the same way. -/
theorem endpoint_url_validation_witness :
    EmbeddingEndpoint.make "mdl" "not a url" none 60 =
      .error (.invalidEndpointURL "not a url") ∧
    EmbeddingEndpoint.call_api ⟨"mdl", none, "not a url", 60⟩ (fun _ => .arr []) "hi" =
      .error (.invalidEndpointURL "not a url") :=
  ⟨(endpoint_url_validation "mdl" "not a url" none 60 ⟨"mdl", none, "not a url", 60⟩
      (fun _ => .arr []) "hi").1 (by decide),
   (endpoint_url_validation "mdl" "not a url" none 60 ⟨"mdl", none, "not a url", 60⟩
      (fun _ => .arr []) "hi").2 (by decide)⟩

/-- C1 counterexample: with `embedding_endpoint_type = "http-endpoint"` (and
a perfectly valid base URL), `embedding_model` does not build the
self-hosted HTTP-endpoint variant: `"http-endpoint"` matches no branch of
the dispatch chain, so the local fallback is returned instead. -/
theorem http_endpoint_tag_returns_local_fallback :
    embedding_model
      ⟨some "http-endpoint", "mdl", some "http://localhost:8080", 768⟩
      ⟨none, none, none, none, none⟩ (some "user-1") =
      .ok default_embedding_model ∧
    Provider.isEndpointVariant default_embedding_model = false :=
  ⟨rfl, rfl⟩

/-- C1 (amended): when `config.embedding_endpoint_type` equals
`"hugging-face"` (the tag the dispatch chain actually uses for the
self-hosted HTTP-endpoint variant) and the configured base URL passes URL
validation, `embedding_model` returns the `EmbeddingEndpoint` variant with
the model and base URL taken from the config and the user tag taken from
`user_id`. -/
theorem hugging_face_tag_builds_endpoint_variant
    (config : EmbeddingConfig) (credentials : MemGPTCredentials) (user_id : Option String)
    (htype : config.embedding_endpoint_type = some "hugging-face")
    (hurl : is_valid_url (config.embedding_endpoint.getD "") = true) :
    embedding_model config credentials user_id =
      .ok (.endpointVariant
        ⟨config.embedding_model, user_id, config.embedding_endpoint.getD "", 60⟩) := by
  simp [embedding_model, htype, EmbeddingEndpoint.make, hurl, Except.map]

/-- C1 witness: a `"hugging-face"` config with a valid URL yields the
endpoint variant carrying the config's model and URL and the user tag. -/
theorem hugging_face_tag_builds_endpoint_variant_witness :
    embedding_model ⟨some "hugging-face", "mdl", some "http://localhost:8080", 768⟩
      ⟨none, none, none, none, none⟩ (some "user-1") =
      .ok (.endpointVariant ⟨"mdl", some "user-1", "http://localhost:8080", 60⟩) :=
  hugging_face_tag_builds_endpoint_variant
    ⟨some "hugging-face", "mdl", some "http://localhost:8080", 768⟩
    ⟨none, none, none, none, none⟩ (some "user-1") rfl (by decide)

/-- Whenever `embedding_model` returns a provider, its variant is the one
`dispatch_tag` assigns to the config's `embedding_endpoint_type`. -/
theorem embedding_model_tag (config : EmbeddingConfig) (credentials : MemGPTCredentials)
    (user_id : Option String) (p : Provider)
    (h : embedding_model config credentials user_id = .ok p) :
    p.tag = dispatch_tag config.embedding_endpoint_type := by
  by_cases h1 : config.embedding_endpoint_type = some "openai"
  · simp [embedding_model, h1] at h
    simp [dispatch_tag, h1, ← h, Provider.tag]
  · by_cases h2 : config.embedding_endpoint_type = some "azure"
    · simp [embedding_model, h1, h2] at h
      simp [dispatch_tag, h1, h2, ← h, Provider.tag]
    · by_cases h3 : config.embedding_endpoint_type = some "hugging-face"
      · rcases hm : EmbeddingEndpoint.make config.embedding_model
            (config.embedding_endpoint.getD "") user_id 60 with err | e
        · simp [embedding_model, h1, h2, h3, hm, Except.map] at h
        · simp [embedding_model, h1, h2, h3, hm, Except.map] at h
          simp [dispatch_tag, h1, h2, h3, ← h, Provider.tag]
      · simp [embedding_model, h1, h2, h3] at h
        simp [dispatch_tag, h1, h2, h3, ← h, Provider.tag, default_embedding_model]

/-- C2: (1) for every config whose `embedding_endpoint_type` is none of the
recognized tags (including an absent value, which can never equal a
recognized `some` tag), `embedding_model` returns the local-fallback
variant — an `.ok` result, never an error; (2) the
`embedding_endpoint_type` uniquely determines which provider variant is
constructed: two successful constructions from configs with equal
`embedding_endpoint_type` always yield the same variant. -/
theorem unknown_endpoint_type_local_fallback
    (config c₁ c₂ : EmbeddingConfig) (credentials cr₁ cr₂ : MemGPTCredentials)
    (user_id u₁ u₂ : Option String) (p₁ p₂ : Provider) :
    (config.embedding_endpoint_type ≠ some "openai" →
      config.embedding_endpoint_type ≠ some "azure" →
      config.embedding_endpoint_type ≠ some "hugging-face" →
      embedding_model config credentials user_id = .ok default_embedding_model) ∧
    (c₁.embedding_endpoint_type = c₂.embedding_endpoint_type →
      embedding_model c₁ cr₁ u₁ = .ok p₁ →
      embedding_model c₂ cr₂ u₂ = .ok p₂ →
      p₁.tag = p₂.tag) := by
  constructor
  · intro h1 h2 h3
    simp [embedding_model, h1, h2, h3]
  · intro hty h1 h2
    rw [embedding_model_tag c₁ cr₁ u₁ p₁ h1, embedding_model_tag c₂ cr₂ u₂ p₂ h2, hty]

/-- C2 witness: `embedding_endpoint_type = "unknown-value"` resolves to the
local-fallback variant without error, and two constructions sharing that
endpoint type produce the same variant. -/
theorem unknown_endpoint_type_local_fallback_witness :
    embedding_model ⟨some "unknown-value", "mdl", none, 768⟩
      ⟨none, none, none, none, none⟩ none = .ok default_embedding_model ∧
    Provider.tag default_embedding_model = Provider.tag default_embedding_model :=
  ⟨(unknown_endpoint_type_local_fallback ⟨some "unknown-value", "mdl", none, 768⟩
      ⟨some "unknown-value", "mdl", none, 768⟩ ⟨some "unknown-value", "mdl", none, 768⟩
      ⟨none, none, none, none, none⟩ ⟨none, none, none, none, none⟩
      ⟨none, none, none, none, none⟩ none none none
      default_embedding_model default_embedding_model).1
      (by decide) (by decide) (by decide),
   (unknown_endpoint_type_local_fallback ⟨some "unknown-value", "mdl", none, 768⟩
      ⟨some "unknown-value", "mdl", none, 768⟩ ⟨some "unknown-value", "mdl", none, 768⟩
      ⟨none, none, none, none, none⟩ ⟨none, none, none, none, none⟩
      ⟨none, none, none, none, none⟩ none none none
      default_embedding_model default_embedding_model).2 rfl
      ((unknown_endpoint_type_local_fallback ⟨some "unknown-value", "mdl", none, 768⟩
        ⟨some "unknown-value", "mdl", none, 768⟩ ⟨some "unknown-value", "mdl", none, 768⟩
        ⟨none, none, none, none, none⟩ ⟨none, none, none, none, none⟩
        ⟨none, none, none, none, none⟩ none none none
        default_embedding_model default_embedding_model).1 (by decide) (by decide) (by decide))
      ((unknown_endpoint_type_local_fallback ⟨some "unknown-value", "mdl", none, 768⟩
        ⟨some "unknown-value", "mdl", none, 768⟩ ⟨some "unknown-value", "mdl", none, 768⟩
        ⟨none, none, none, none, none⟩ ⟨none, none, none, none, none⟩
        ⟨none, none, none, none, none⟩ none none none
        default_embedding_model default_embedding_model).1 (by decide) (by decide) (by decide))⟩

/-- C3: when the embedded vector has length `N ≤ max_embedding_dim`, the
padding step succeeds and every returned vector has length exactly
`max_embedding_dim`, its first `N` components equal the input components in
order, and the remaining components are zero; when the vector is longer
than `max_embedding_dim`, the padding call fails (negative `np.pad` width)
rather than silently truncating. -/
theorem query_embedding_pads_to_max_dim (max_embedding_dim : Nat)
    (get_text_embedding : String → List Rat) (query_text : String) :
    ((get_text_embedding query_text).length ≤ max_embedding_dim →
      query_embedding max_embedding_dim get_text_embedding query_text =
        .ok (get_text_embedding query_text ++
          List.replicate (max_embedding_dim - (get_text_embedding query_text).length) 0) ∧
      ∀ w, query_embedding max_embedding_dim get_text_embedding query_text = .ok w →
        w.length = max_embedding_dim ∧
        w.take (get_text_embedding query_text).length = get_text_embedding query_text ∧
        w.drop (get_text_embedding query_text).length =
          List.replicate (max_embedding_dim - (get_text_embedding query_text).length) 0) ∧
    (max_embedding_dim < (get_text_embedding query_text).length →
      query_embedding max_embedding_dim get_text_embedding query_text =
        .error .oversizedVectorForPadding) := by
  constructor
  · intro hle
    have heq : query_embedding max_embedding_dim get_text_embedding query_text =
        .ok (get_text_embedding query_text ++
          List.replicate (max_embedding_dim - (get_text_embedding query_text).length) 0) := by
      simp [query_embedding, hle]
    refine ⟨heq, ?_⟩
    intro w hw
    rw [heq, Except.ok.injEq] at hw
    subst hw
    refine ⟨?_, List.take_left _ _, List.drop_left _ _⟩
    simp only [List.length_append, List.length_replicate]
    omega
  · intro hgt
    simp [query_embedding, Nat.not_le.mpr hgt]

/-- C3 witness: padding `[1, 2]` to width 4 gives `[1, 2, 0, 0]` (length 4,
prefix preserved, suffix zero), and padding it to width 1 fails. -/
theorem query_embedding_pads_to_max_dim_witness :
    query_embedding 4 (fun _ => [(1 : Rat), 2]) "q" =
      .ok ([(1 : Rat), 2] ++ List.replicate 2 0) ∧
    query_embedding 1 (fun _ => [(1 : Rat), 2]) "q" =
      .error .oversizedVectorForPadding :=
  ⟨((query_embedding_pads_to_max_dim 4 (fun _ => [(1 : Rat), 2]) "q").1 (by decide)).1,
   (query_embedding_pads_to_max_dim 1 (fun _ => [(1 : Rat), 2]) "q").2 (by decide)⟩

/-- C6: when the text's token count under the resolved tokenizer is at most
the resolved `max_length`, `check_and_split_text` returns the text
unchanged as a single-element list; and on every input the (total, hence
never-raising) function returns at least one segment. -/
theorem check_and_split_text_below_budget (get_encoding : String → Encoding)
    (tokenizer_map : List (String × String)) (tokenizer_default : String)
    (format_text : String → String → Nat → String) (text emodel : String) :
    (((resolved_encoding get_encoding tokenizer_map tokenizer_default emodel).encode
          text).length ≤
        resolved_max_length get_encoding tokenizer_map tokenizer_default emodel →
      (check_and_split_text get_encoding tokenizer_map tokenizer_default format_text
          text emodel).1 = [text]) ∧
    1 ≤ (check_and_split_text get_encoding tokenizer_map tokenizer_default format_text
        text emodel).1.length := by
  constructor
  · intro hle
    simp only [check_and_split_text]
    rw [if_neg (Nat.not_lt.mpr hle)]
  · simp only [check_and_split_text]
    split <;> simp

/-- C6 witness: with a per-character tokenizer whose budget is 10, the
5-token text `"hello"` is returned unchanged as a single segment. -/
theorem check_and_split_text_below_budget_witness :
    (check_and_split_text (fun _ => ⟨fun s => List.replicate s.length 0, some 10⟩)
        [] "cl100k_base" (fun t _ _ => t) "hello" "mdl").1 = ["hello"] :=
  (check_and_split_text_below_budget
      (fun _ => ⟨fun s => List.replicate s.length 0, some 10⟩)
      [] "cl100k_base" (fun t _ _ => t) "hello" "mdl").1 (by decide)

/-- C7: when the text's token count exceeds the resolved `max_length` (the
tokenizer-declared limit, or 8191 when the tokenizer exposes none), and the
external truncation helper honours its contract on this input (its output
re-encodes to at most `max_length` tokens), the returned single segment is
the truncated text, every returned segment's token count is at most
`max_length`, and the truncation warning is emitted. -/
theorem check_and_split_text_truncates (get_encoding : String → Encoding)
    (tokenizer_map : List (String × String)) (tokenizer_default : String)
    (format_text : String → String → Nat → String) (text emodel : String)
    (hover : resolved_max_length get_encoding tokenizer_map tokenizer_default emodel <
      ((resolved_encoding get_encoding tokenizer_map tokenizer_default emodel).encode
        text).length)
    (hft : ((resolved_encoding get_encoding tokenizer_map tokenizer_default emodel).encode
        (format_text text emodel
          (resolved_max_length get_encoding tokenizer_map tokenizer_default emodel))).length ≤
      resolved_max_length get_encoding tokenizer_map tokenizer_default emodel) :
    (check_and_split_text get_encoding tokenizer_map tokenizer_default format_text
        text emodel).1 =
      [format_text text emodel
        (resolved_max_length get_encoding tokenizer_map tokenizer_default emodel)] ∧
    (∀ s ∈ (check_and_split_text get_encoding tokenizer_map tokenizer_default format_text
        text emodel).1,
      ((resolved_encoding get_encoding tokenizer_map tokenizer_default emodel).encode
          s).length ≤
        resolved_max_length get_encoding tokenizer_map tokenizer_default emodel) ∧
    Warning.truncation
        ((resolved_encoding get_encoding tokenizer_map tokenizer_default emodel).encode
          text).length
        (resolved_max_length get_encoding tokenizer_map tokenizer_default emodel) ∈
      (check_and_split_text get_encoding tokenizer_map tokenizer_default format_text
        text emodel).2 := by
  have hres : (check_and_split_text get_encoding tokenizer_map tokenizer_default format_text
      text emodel) =
      ([format_text text emodel
          (resolved_max_length get_encoding tokenizer_map tokenizer_default emodel)],
        (resolve_tokenizer get_encoding tokenizer_map tokenizer_default emodel).2 ++
          (resolve_max_length
            (resolved_encoding get_encoding tokenizer_map tokenizer_default emodel) emodel).2 ++
          [Warning.truncation
            ((resolved_encoding get_encoding tokenizer_map tokenizer_default emodel).encode
              text).length
            (resolved_max_length get_encoding tokenizer_map tokenizer_default emodel)]) := by
    simp only [check_and_split_text]
    rw [if_pos hover]
  refine ⟨by rw [hres], ?_, ?_⟩
  · intro s hs
    rw [hres] at hs
    simp only [List.mem_singleton] at hs
    subst hs
    exact hft
  · rw [hres]
    simp

/-- C7 witness: a per-character tokenizer with budget 2 and a take-prefix
truncator turn the 4-token text `"abcd"` into the single 2-token segment
`"ab"`, with the truncation warning emitted. -/
theorem check_and_split_text_truncates_witness :
    (check_and_split_text (fun _ => ⟨fun s => List.replicate s.length 0, some 2⟩)
        [] "cl100k_base" (fun t _ m => ⟨t.toList.take m⟩) "abcd" "mdl").1 = ["ab"] ∧
    Warning.truncation 4 2 ∈
      (check_and_split_text (fun _ => ⟨fun s => List.replicate s.length 0, some 2⟩)
        [] "cl100k_base" (fun t _ m => ⟨t.toList.take m⟩) "abcd" "mdl").2 :=
  ⟨(check_and_split_text_truncates
      (fun _ => ⟨fun s => List.replicate s.length 0, some 2⟩)
      [] "cl100k_base" (fun t _ m => ⟨t.toList.take m⟩) "abcd" "mdl"
      (by decide) (by decide)).1,
   (check_and_split_text_truncates
      (fun _ => ⟨fun s => List.replicate s.length 0, some 2⟩)
      [] "cl100k_base" (fun t _ m => ⟨t.toList.take m⟩) "abcd" "mdl"
      (by decide) (by decide)).2.2⟩

/-- C8: for every model identifier with no entry in the tokenizer mapping,
the (total, hence never-failing) resolver returns the tokenizer built from
the default tokenizer identifier together with the diagnostic warning. -/
theorem resolve_tokenizer_default_on_miss (get_encoding : String → Encoding)
    (tokenizer_map : List (String × String)) (tokenizer_default emodel : String)
    (hmiss : tokenizer_map.find? (fun p => p.1 == emodel) = none) :
    resolve_tokenizer get_encoding tokenizer_map tokenizer_default emodel =
      (get_encoding tokenizer_default, [Warning.tokenizerNotFound emodel]) := by
  simp only [resolve_tokenizer]
  rw [hmiss]

/-- C8 witness: with an empty mapping, `"unmapped-model"` resolves to the
default tokenizer with the diagnostic. -/
theorem resolve_tokenizer_default_on_miss_witness :
    resolve_tokenizer (fun _ => ⟨fun _ => [], none⟩) [] "cl100k_base" "unmapped-model" =
      ((⟨fun _ => [], none⟩ : Encoding),
        [Warning.tokenizerNotFound "unmapped-model"]) :=
  resolve_tokenizer_default_on_miss (fun _ => ⟨fun _ => [], none⟩) [] "cl100k_base"
    "unmapped-model" rfl

end MemGPT
